import Mathlib

/-!
Verification development for the misprint-demo repository: a shallow
embedding of the purchase-coordination backend (modelled from the design
specification, since backend/main.py is not part of the visible sources)
and of the Next.js client component in frontend/app/page.js, together with
theorems settling the behavioural claims about the system.
-/

namespace Misprint

/-! ## Backend data model -/

/-- Modelled from the spec: the Resource Record of section 3 of the design
document (backend/main.py is not among the visible sources). It holds a
stable identifier, a quantity (an integer with invariant quantity >= 0),
the immutable baseline initial_quantity used by Reset, and the immutable
descriptive fields name, description and image_url. -/
structure ResourceRecord where
  id : String
  name : String
  description : String
  image_url : String
  quantity : Int
  initial_quantity : Int
  deriving DecidableEq, Repr

/-- Snapshot of the public fields of a Resource Record, the shape of the
status response and of every broadcast event payload:
`\x7bid, name, description, image_url, quantity\x7d`. -/
structure Snapshot where
  id : String
  name : String
  description : String
  image_url : String
  quantity : Int
  deriving DecidableEq, Repr

/-- Takes the immutable snapshot of a record at one instant. -/
def snapshotOf (r : ResourceRecord) : Snapshot :=
  { id := r.id
    name := r.name
    description := r.description
    image_url := r.image_url
    quantity := r.quantity }

/-- Outcome of one purchase call: success, or the expected user-facing
out-of-stock failure. -/
inductive PurchaseResult where
  | Purchased
  | OutOfStock
  deriving DecidableEq, Repr

/-- Backend state: the single contended Resource Record together with the
list of events published to the Broadcaster so far (each event is a
snapshot taken right after a successful mutation, appended in commit
order). -/
structure CoordState where
  record : ResourceRecord
  events : List Snapshot
  deriving DecidableEq, Repr

/-- Modelled from the spec: the Purchase Coordinator operation of section
4.2 (backend/main.py is not among the visible sources). Under the
per-resource exclusive lock it reads the quantity; if it is not positive
it returns OutOfStock with no mutation and no event, otherwise it
decrements the quantity, publishes an event carrying the new snapshot, and
returns Purchased. The lock makes the whole check-then-decrement atomic,
so it is one step of the model. -/
def purchase (s : CoordState) : CoordState × PurchaseResult :=
  if s.record.quantity ≤ 0 then
    (s, PurchaseResult.OutOfStock)
  else
    let r := { s.record with quantity := s.record.quantity - 1 }
    ({ record := r, events := s.events ++ [snapshotOf r] }, PurchaseResult.Purchased)

/-- Modelled from the spec: the Reset operation of section 4.5
(backend/main.py is not among the visible sources). Under the same
exclusive guard as purchase it sets the quantity back to
initial_quantity and publishes an event with the new snapshot. -/
def reset (s : CoordState) : CoordState :=
  let r := { s.record with quantity := s.record.initial_quantity }
  { record := r, events := s.events ++ [snapshotOf r] }

/-- Modelled from the spec: the Status Query of section 4.3
(backend/main.py is not among the visible sources). A non-mutating
consistent read returning the current snapshot. -/
def status (s : CoordState) : Snapshot :=
  snapshotOf s.record

/-- Runs n purchase calls against the coordinator. Because the Lock
Manager serializes all contenders for the one resource (section 4.1 and
section 5: mutations are linearized by the lock), any concurrent
execution of n purchase calls is equivalent to some sequential order of
the n atomic critical sections; since the calls are identical, this
single sequence represents every interleaving. Returns the final state
and the list of the n results. -/
def runPurchases : Nat → CoordState → CoordState × List PurchaseResult
  | 0, s => (s, [])
  | n + 1, s =>
    let step := purchase s
    let rest := runPurchases n step.1
    (rest.1, step.2 :: rest.2)

/-- One atomic backend operation, as serialized by the Lock Manager. The
status query does not mutate state. -/
inductive Op where
  | buy
  | resetOp
  | statusOp
  deriving DecidableEq, Repr

/-- Applies one serialized operation to the backend state. -/
def applyOp : Op → CoordState → CoordState
  | Op.buy, s => (purchase s).1
  | Op.resetOp, s => reset s
  | Op.statusOp, s => s

/-- Runs an arbitrary serialized history of operations, representing an
arbitrary interleaving of concurrent calls at the atomicity granularity
the lock provides. -/
def runOps : List Op → CoordState → CoordState
  | [], s => s
  | op :: rest, s => runOps rest (applyOp op s)

/-! ## Helper lemmas about the coordinator -/

theorem purchase_of_nonpos (s : CoordState) (h : s.record.quantity ≤ 0) :
    purchase s = (s, PurchaseResult.OutOfStock) := by
  simp [purchase, h]

theorem purchase_of_pos (s : CoordState) (h : 0 < s.record.quantity) :
    purchase s =
      (let r := { s.record with quantity := s.record.quantity - 1 }
       ({ record := r, events := s.events ++ [snapshotOf r] },
        PurchaseResult.Purchased)) := by
  have h2 : ¬ s.record.quantity ≤ 0 := not_le.mpr h
  simp [purchase, h2]

theorem runPurchases_count (N k : Nat) (s : CoordState)
    (hk : k ≤ N) (hq : s.record.quantity = (k : Int)) :
    (runPurchases N s).2.count PurchaseResult.Purchased = k ∧
    (runPurchases N s).2.count PurchaseResult.OutOfStock = N - k ∧
    (runPurchases N s).1.record.quantity = 0 := by
  induction N generalizing k s with
  | zero =>
    have hk0 : k = 0 := Nat.le_zero.mp hk
    subst hk0
    simpa [runPurchases] using hq
  | succ n ih =>
    cases k with
    | zero =>
      have hle : s.record.quantity ≤ 0 := by simp [hq]
      have hstep := purchase_of_nonpos s hle
      have ihs := ih 0 s (Nat.zero_le n) hq
      simp only [runPurchases, hstep]
      refine ⟨?_, ?_, ihs.2.2⟩
      · simpa [List.count_cons] using ihs.1
      · simpa [List.count_cons] using ihs.2.1
    | succ j =>
      have hpos : 0 < s.record.quantity := by
        rw [hq]; exact_mod_cast Nat.succ_pos j
      have hstep := purchase_of_pos s hpos
      have hq2 : (purchase s).1.record.quantity = (j : Int) := by
        rw [hstep]
        simp [hq]
      have hjn : j ≤ n := Nat.succ_le_succ_iff.mp hk
      have ihs := ih j (purchase s).1 hjn hq2
      have hres : (purchase s).2 = PurchaseResult.Purchased := by
        rw [hstep]
      simp only [runPurchases]
      rw [hres]
      refine ⟨?_, ?_, ihs.2.2⟩
      · simpa [List.count_cons] using ihs.1
      · simpa [List.count_cons, Nat.succ_sub_succ] using ihs.2.1

/-! ## Claim theorems (backend) -/

/-- C1: for a resource with quantity = k and N >= k concurrent purchase
calls (serialized by the lock, so represented by any sequential order of
the N atomic calls), exactly k calls return Purchased, the remaining
N - k return OutOfStock, and the final quantity is 0. -/
theorem no_oversell (N k : Nat) (s : CoordState)
    (hk : k ≤ N) (hq : s.record.quantity = (k : Int)) :
    (runPurchases N s).2.count PurchaseResult.Purchased = k ∧
    (runPurchases N s).2.count PurchaseResult.OutOfStock = N - k ∧
    (runPurchases N s).1.record.quantity = 0 :=
  runPurchases_count N k s hk hq

/-- C1 witness: a resource with quantity = 1 and 4 purchase calls gives
exactly one Purchased, three OutOfStock, final quantity 0. -/
theorem no_oversell_witness :
    (1 : Nat) ≤ 4 ∧
    ((runPurchases 4
        { record := { id := "charizard-1st-ed", name := "c", description := "d",
                      image_url := "u", quantity := 1, initial_quantity := 1 },
          events := [] }).2.count PurchaseResult.Purchased = 1 ∧
     (runPurchases 4
        { record := { id := "charizard-1st-ed", name := "c", description := "d",
                      image_url := "u", quantity := 1, initial_quantity := 1 },
          events := [] }).2.count PurchaseResult.OutOfStock = 4 - 1 ∧
     (runPurchases 4
        { record := { id := "charizard-1st-ed", name := "c", description := "d",
                      image_url := "u", quantity := 1, initial_quantity := 1 },
          events := [] }).1.record.quantity = 0) :=
  ⟨by decide,
   no_oversell 4 1
     { record := { id := "charizard-1st-ed", name := "c", description := "d",
                   image_url := "u", quantity := 1, initial_quantity := 1 },
       events := [] }
     (by decide) (by decide)⟩

/-! ## Non-negativity invariant -/

/-- Invariant maintained by every serialized operation: the quantity and
the reset baseline are both non-negative. -/
def NonnegState (s : CoordState) : Prop :=
  0 ≤ s.record.quantity ∧ 0 ≤ s.record.initial_quantity

theorem applyOp_nonneg (op : Op) (s : CoordState) (h : NonnegState s) :
    NonnegState (applyOp op s) := by
  obtain ⟨hq, hi⟩ := h
  cases op with
  | buy =>
    by_cases hle : s.record.quantity ≤ 0
    · simp [applyOp, purchase, hle]
      exact ⟨hq, hi⟩
    · have hpos : 0 < s.record.quantity := lt_of_not_le hle
      simp [applyOp, purchase, hle, NonnegState]
      exact ⟨by omega, hi⟩
  | resetOp =>
    simp [applyOp, reset, NonnegState]
    exact hi
  | statusOp =>
    exact ⟨hq, hi⟩

theorem runOps_nonneg (ops : List Op) (s : CoordState) (h : NonnegState s) :
    NonnegState (runOps ops s) := by
  induction ops generalizing s with
  | nil => exact h
  | cons op rest ih => exact ih (applyOp op s) (applyOp_nonneg op s h)

/-- C2: starting from a state whose quantity and baseline are
non-negative, no serialized history of purchase, reset and status
operations ever makes the quantity negative, and the snapshot any reader
obtains through the status query never shows a negative quantity. -/
theorem quantity_never_negative (ops : List Op) (s : CoordState)
    (hq : 0 ≤ s.record.quantity) (hi : 0 ≤ s.record.initial_quantity) :
    0 ≤ (runOps ops s).record.quantity ∧
    0 ≤ (status (runOps ops s)).quantity := by
  have h := runOps_nonneg ops s ⟨hq, hi⟩
  exact ⟨h.1, h.1⟩

/-- C2 witness: a history of purchases past exhaustion, a reset and a
status read keeps the quantity non-negative. -/
theorem quantity_never_negative_witness :
    (0 : Int) ≤ 1 ∧ (0 : Int) ≤ 1 ∧
    (0 ≤ (runOps [Op.buy, Op.buy, Op.buy, Op.resetOp, Op.buy, Op.statusOp]
        { record := { id := "charizard-1st-ed", name := "c", description := "d",
                      image_url := "u", quantity := 1, initial_quantity := 1 },
          events := [] }).record.quantity ∧
     0 ≤ (status (runOps [Op.buy, Op.buy, Op.buy, Op.resetOp, Op.buy, Op.statusOp]
        { record := { id := "charizard-1st-ed", name := "c", description := "d",
                      image_url := "u", quantity := 1, initial_quantity := 1 },
          events := [] })).quantity) :=
  ⟨by decide, by decide,
   quantity_never_negative [Op.buy, Op.buy, Op.buy, Op.resetOp, Op.buy, Op.statusOp]
     { record := { id := "charizard-1st-ed", name := "c", description := "d",
                   image_url := "u", quantity := 1, initial_quantity := 1 },
       events := [] }
     (by decide) (by decide)⟩

/-! ## Reset idempotence -/

/-- Snapshot published by a reset of the given state: the record with its
quantity restored to the baseline. -/
def resetSnap (s : CoordState) : Snapshot :=
  snapshotOf { s.record with quantity := s.record.initial_quantity }

/-- C5: reset is idempotent on state but not on events. Resetting twice
leaves the same record (hence the same status snapshot) as resetting
once, while the event log gains two broadcast events, each carrying
quantity = initial_quantity. -/
theorem reset_idempotent_two_events (s : CoordState) :
    (reset (reset s)).record = (reset s).record ∧
    status (reset (reset s)) = status (reset s) ∧
    (reset (reset s)).events = s.events ++ [resetSnap s, resetSnap s] ∧
    (resetSnap s).quantity = s.record.initial_quantity := by
  refine ⟨rfl, rfl, ?_, rfl⟩
  simp [reset, resetSnap, snapshotOf]

/-! ## SSE transport model -/

/-- JSON values as far as this system needs them: strings, integer
numbers, and objects given as ordered field lists. Every frame pushed on
the events stream is one such value. -/
inductive Json where
  | str : String → Json
  | num : Int → Json
  | obj : List (String × Json) → Json

/-- Tests whether a JSON value is a single object. -/
def Json.isObj : Json → Bool
  | Json.obj _ => true
  | _ => false

/-- Modelled from the spec: the wire encoding of a snapshot, the payload
of the status response and of each pushed events frame, a single JSON
object `\x7bid, name, description, image_url, quantity\x7d` (section 6;
backend/main.py is not among the visible sources). -/
def encodeSnapshot (e : Snapshot) : Json :=
  Json.obj [("id", Json.str e.id),
            ("name", Json.str e.name),
            ("description", Json.str e.description),
            ("image_url", Json.str e.image_url),
            ("quantity", Json.num e.quantity)]

/-- Parses a JSON value of the status-response shape back into a
snapshot, the reading a client performs on each frame. -/
def decodeSnapshot : Json → Option Snapshot
  | Json.obj [("id", Json.str i),
              ("name", Json.str n),
              ("description", Json.str d),
              ("image_url", Json.str u),
              ("quantity", Json.num q)] =>
    some { id := i, name := n, description := d, image_url := u, quantity := q }
  | _ => none

/-! ## Client model (frontend/app/page.js) -/

/-- Backend base URL constant of page.js. -/
def API_URL : String := "http://localhost:8000"

/-- Identifier of the single demo item in page.js. -/
def ITEM_ID : String := "charizard-1st-ed"

/-- Message state of the component: `\x7b text, type \x7d`. -/
structure Msg where
  text : String
  type : String
  deriving DecidableEq, Repr

/-- React state of the HomePage component: item, isLoading, message and
error, as declared by the four useState hooks. -/
structure ClientState where
  item : Option Snapshot
  isLoading : Bool
  message : Msg
  error : Option String
  deriving DecidableEq, Repr

/-- Resolved fetch response: HTTP status code plus already-parsed body. -/
structure HttpResponse (β : Type) where
  status : Nat
  body : β
  deriving DecidableEq, Repr

/-- Per the fetch standard, response.ok is true exactly when the status
code is in the range 200 to 299. -/
def HttpResponse.ok {β : Type} (r : HttpResponse β) : Bool :=
  decide (200 ≤ r.status ∧ r.status < 300)

/-- Outcome of a fetch call: the promise resolves with a response, or it
rejects (network failure), which lands in the catch branch. A body that
fails to parse as JSON also lands in the catch branch and is folded into
failure here. -/
inductive FetchResult (β : Type) where
  | success : HttpResponse β → FetchResult β
  | failure : FetchResult β
  deriving DecidableEq, Repr

/-- Error string set by fetchItemStatus when the status fetch fails. -/
def connectError : String := "Could not connect to the backend. Is it running?"

/-- The fetchItemStatus callback of page.js: on an ok response it stores
the parsed snapshot and clears the error; a non-ok response throws, and
any thrown error or rejection sets the connect error and clears the
item. -/
def fetchItemStatus (res : FetchResult Snapshot) (s : ClientState) : ClientState :=
  match res with
  | FetchResult.success r =>
    if r.ok then { s with item := some r.body, error := none }
    else { s with error := some connectError, item := none }
  | FetchResult.failure => { s with error := some connectError, item := none }

/-- The eventSource.onmessage handler of page.js: parses the frame as
JSON and replaces the item state with the parsed snapshot. Nothing else
in the component state is touched and no refetch is performed. -/
def onmessage (frame : Json) (s : ClientState) : ClientState :=
  match decodeSnapshot frame with
  | some it => { s with item := some it }
  | none => s

/-- Body of the buy response: a message field on success, a detail field
on failure, as accessed by handleBuy. -/
structure BuyBody where
  message : String
  detail : String
  deriving DecidableEq, Repr

/-- The handleBuy handler of page.js: posts to /buy, parses the JSON
body, and on response.ok shows a success message built from the body
message field, otherwise a failure message built from the body detail
field; a rejection shows the generic error. isLoading is cleared in the
finally branch. -/
def handleBuy (res : FetchResult BuyBody) (s : ClientState) : ClientState :=
  match res with
  | FetchResult.success r =>
    if r.ok then
      { s with isLoading := false,
               message := { text := "Success! " ++ r.body.message, type := "success" } }
    else
      { s with isLoading := false,
               message := { text := "Failed: " ++ r.body.detail, type := "error" } }
  | FetchResult.failure =>
    { s with isLoading := false,
             message := { text := "An unexpected error occurred.", type := "error" } }

/-- The handleReset handler of page.js: posts to /reset and, whenever the
fetch promise resolves, reports success without inspecting the response
at all; only a rejection reaches the catch branch and reports failure. -/
def handleReset (res : FetchResult Unit) (s : ClientState) : ClientState :=
  match res with
  | FetchResult.success _ =>
    { s with isLoading := false,
             message := { text := "Demo has been reset.", type := "info" } }
  | FetchResult.failure =>
    { s with isLoading := false,
             message := { text := "Could not reset demo state.", type := "error" } }

/-! ## Client rendering model -/

/-- Data the item card renders: the snapshot fields image_url, name,
description and quantity, the two button disabled attributes, the
message block and the buy-button label, read off the JSX of page.js. -/
structure ItemCard where
  image_url : String
  name : String
  description : String
  quantity : Int
  buyDisabledAttr : Bool
  resetDisabledAttr : Bool
  messageText : String
  messageType : String
  buyLabel : String
  deriving DecidableEq, Repr

/-- Builds the item card from the component state, per the JSX: the buy
button is disabled when isLoading or the quantity strictly equals 0, the
reset button when isLoading. -/
def renderCard (isLoading : Bool) (m : Msg) (it : Snapshot) : ItemCard :=
  { image_url := it.image_url
    name := it.name
    description := it.description
    quantity := it.quantity
    buyDisabledAttr := isLoading || decide (it.quantity = 0)
    resetDisabledAttr := isLoading
    messageText := m.text
    messageType := m.type
    buyLabel := if isLoading then "Processing..." else "Buy Now" }

/-- What the component returns: the error view when error is set, else
the loading placeholder when no item is loaded, else the item card. -/
inductive View where
  | errorView : String → View
  | loadingView : View
  | cardView : ItemCard → View
  deriving DecidableEq, Repr

/-- The render logic of page.js, following the order of its early
returns: error first, then the missing-item placeholder, then the card. -/
def render (s : ClientState) : View :=
  match s.error with
  | some e => View.errorView e
  | none =>
    match s.item with
    | none => View.loadingView
    | some it => View.cardView (renderCard s.isLoading s.message it)

/-! ## EventSource lifecycle model -/

/-- Connection status of an EventSource handle. -/
inductive ConnStatus where
  | opened
  | closed
  deriving DecidableEq, Repr

/-- An EventSource handle: the subscribed URL and whether the persistent
connection is still open. -/
structure EventSourceConn where
  url : String
  connStatus : ConnStatus
  deriving DecidableEq, Repr

/-- Constructing an EventSource opens a persistent connection. -/
def newEventSource (url : String) : EventSourceConn :=
  { url := url, connStatus := ConnStatus.opened }

/-- The close method of an EventSource shuts the connection. -/
def EventSourceConn.close (c : EventSourceConn) : EventSourceConn :=
  { c with connStatus := ConnStatus.closed }

/-- Setup half of the SSE useEffect of page.js: one EventSource to the
events endpoint, created once on mount (empty dependency array). -/
def sseEffectMount : EventSourceConn :=
  newEventSource (API_URL ++ "/events")

/-- Cleanup function returned by the SSE useEffect of page.js: it closes
the connection. -/
def sseEffectCleanup (c : EventSourceConn) : EventSourceConn :=
  c.close

/-- Unmounting the component runs the cleanup function of each live
effect, per the React effect contract; for this component that is the
SSE cleanup applied to the connection created at mount. -/
def unmountComponent (c : EventSourceConn) : EventSourceConn :=
  sseEffectCleanup c

/-- Set of still-open subscription connections held by a handle. -/
def liveConnections (c : EventSourceConn) : List EventSourceConn :=
  if c.connStatus = ConnStatus.opened then [c] else []

/-! ## Helper lemmas about the client model -/

theorem decode_encode (e : Snapshot) :
    decodeSnapshot (encodeSnapshot e) = some e := rfl

theorem append_ne_empty (a b : String) (h : 0 < a.length) : a ++ b ≠ "" := by
  intro hab
  have h2 := congrArg String.length hab
  rw [String.length_append] at h2
  have h3 : String.length "" = 0 := rfl
  omega

/-! ## Claim theorems (client and transport) -/

/-- C3: every frame pushed on the events stream is a single complete JSON
object that parses independently back to the snapshot it carries, in the
same shape as the status response, and the client onmessage handler
applies a received frame by parsing it and replacing the whole item state
with the parsed snapshot, touching nothing else and performing no
refetch. -/
theorem sse_frames_complete (e : Snapshot) (s : ClientState) :
    (encodeSnapshot e).isObj = true ∧
    decodeSnapshot (encodeSnapshot e) = some e ∧
    onmessage (encodeSnapshot e) s = { s with item := some e } := by
  refine ⟨rfl, decode_encode e, ?_⟩
  simp [onmessage, decode_encode]

/-- C4: for every resolved buy response, a non-success status displays
the failure message built from the body detail field, and a success
status displays the message built from the body message field; in both
cases the displayed text is nonempty, and a rejected fetch displays the
generic error. -/
theorem buy_messages (r : HttpResponse BuyBody) (s : ClientState) :
    (handleBuy (FetchResult.success r) s).message =
      (if r.ok then { text := "Success! " ++ r.body.message, type := "success" }
       else { text := "Failed: " ++ r.body.detail, type := "error" }) ∧
    (handleBuy (FetchResult.success r) s).message.text ≠ "" ∧
    (handleBuy FetchResult.failure s).message =
      { text := "An unexpected error occurred.", type := "error" } := by
  cases hok : r.ok with
  | false =>
    refine ⟨by simp [handleBuy, hok], ?_, rfl⟩
    simp [handleBuy, hok]
    exact append_ne_empty "Failed: " r.body.detail (by decide)
  | true =>
    refine ⟨by simp [handleBuy, hok], ?_, rfl⟩
    simp [handleBuy, hok]
    exact append_ne_empty "Success! " r.body.message (by decide)

/-- C6: the SSE effect opens one connection at mount, its cleanup closes
the connection, and after unmount (which runs the cleanup, per the React
effect contract) no live subscription connection remains open. -/
theorem unmount_closes_subscription (c : EventSourceConn) :
    sseEffectMount.connStatus = ConnStatus.opened ∧
    (sseEffectCleanup c).connStatus = ConnStatus.closed ∧
    liveConnections (unmountComponent c) = [] ∧
    liveConnections (unmountComponent sseEffectMount) = [] := by
  refine ⟨rfl, rfl, ?_, ?_⟩
  · simp [liveConnections, unmountComponent, sseEffectCleanup, EventSourceConn.close]
  · rfl

/-- C7: the status snapshot carries exactly the fields id, name,
description, image_url and quantity of the record, purchase and reset
never change the descriptive fields, and the client stores and renders
the same snapshot fields (name, description, image_url, quantity)
whether the snapshot arrived via the status fetch or via an events
frame. -/
theorem snapshot_fields_rendered (r : ResourceRecord) (b : CoordState)
    (cs : ClientState) :
    status b = snapshotOf b.record ∧
    (snapshotOf r).id = r.id ∧
    (snapshotOf r).name = r.name ∧
    (snapshotOf r).description = r.description ∧
    (snapshotOf r).image_url = r.image_url ∧
    (snapshotOf r).quantity = r.quantity ∧
    (purchase b).1.record.name = b.record.name ∧
    (purchase b).1.record.description = b.record.description ∧
    (purchase b).1.record.image_url = b.record.image_url ∧
    (reset b).record.name = b.record.name ∧
    (reset b).record.description = b.record.description ∧
    (reset b).record.image_url = b.record.image_url ∧
    (fetchItemStatus
        (FetchResult.success { status := 200, body := snapshotOf r }) cs).item =
      some (snapshotOf r) ∧
    (onmessage (encodeSnapshot (snapshotOf r)) cs).item = some (snapshotOf r) ∧
    renderCard cs.isLoading cs.message (snapshotOf r) =
      { image_url := r.image_url
        name := r.name
        description := r.description
        quantity := r.quantity
        buyDisabledAttr := cs.isLoading || decide (r.quantity = 0)
        resetDisabledAttr := cs.isLoading
        messageText := cs.message.text
        messageType := cs.message.type
        buyLabel := if cs.isLoading then "Processing..." else "Buy Now" } := by
  refine ⟨rfl, rfl, rfl, rfl, rfl, rfl, ?_, ?_, ?_, rfl, rfl, rfl, ?_, ?_, rfl⟩
  · by_cases h : b.record.quantity ≤ 0 <;> simp [purchase, h]
  · by_cases h : b.record.quantity ≤ 0 <;> simp [purchase, h]
  · by_cases h : b.record.quantity ≤ 0 <;> simp [purchase, h]
  · simp [fetchItemStatus, HttpResponse.ok]
  · simp [onmessage, decode_encode]

/-- C8: the reset handler reports success whenever the fetch promise
resolves, independently of the HTTP status code, and reports the failure
message only when the fetch rejects; the response is never inspected. -/
theorem reset_reports_success (r1 r2 : HttpResponse Unit) (s : ClientState) :
    handleReset (FetchResult.success r1) s = handleReset (FetchResult.success r2) s ∧
    (handleReset (FetchResult.success r1) s).message =
      { text := "Demo has been reset.", type := "info" } ∧
    (handleReset FetchResult.failure s).message =
      { text := "Could not reset demo state.", type := "error" } :=
  ⟨rfl, rfl, rfl⟩

/-- C9: in every rendered item card, the buy button carries
disabled = true whenever the displayed quantity equals 0 or a request is
in flight, so the button cannot initiate a buy in those states. -/
theorem buy_button_disabled (s : ClientState) (c : ItemCard)
    (hr : render s = View.cardView c)
    (hc : c.quantity = 0 ∨ s.isLoading = true) :
    c.buyDisabledAttr = true := by
  unfold render at hr
  cases he : s.error with
  | some e => rw [he] at hr; exact absurd hr (by simp)
  | none =>
    rw [he] at hr
    cases hi : s.item with
    | none => rw [hi] at hr; exact absurd hr (by simp)
    | some it =>
      rw [hi] at hr
      have hc2 : c = renderCard s.isLoading s.message it := by
        injection hr with h
        exact h.symm
      subst hc2
      rcases hc with h0 | hl
      · simp [renderCard] at h0 ⊢
        simp [h0]
      · simp [renderCard, hl]

/-- C9 witness: with no request in flight and quantity 0 the rendered
buy button is disabled. -/
theorem buy_button_disabled_witness :
    render { item := some { id := "i", name := "n", description := "d",
                            image_url := "u", quantity := 0 },
             isLoading := false,
             message := { text := "", type := "" },
             error := none } =
      View.cardView (renderCard false { text := "", type := "" }
        { id := "i", name := "n", description := "d",
          image_url := "u", quantity := 0 }) ∧
    ((renderCard false { text := "", type := "" }
        { id := "i", name := "n", description := "d",
          image_url := "u", quantity := 0 }).quantity = 0 ∨
      false = true) ∧
    (renderCard false { text := "", type := "" }
        { id := "i", name := "n", description := "d",
          image_url := "u", quantity := 0 }).buyDisabledAttr = true :=
  ⟨rfl, Or.inl rfl,
   buy_button_disabled
     { item := some { id := "i", name := "n", description := "d",
                      image_url := "u", quantity := 0 },
       isLoading := false,
       message := { text := "", type := "" },
       error := none }
     (renderCard false { text := "", type := "" }
       { id := "i", name := "n", description := "d",
         image_url := "u", quantity := 0 })
     rfl (Or.inl rfl)⟩

/-- C10: a received events frame updates the item but leaves the error
state untouched, so after a failed status fetch the error view is
rendered even when a later frame has stored a fresh snapshot. -/
theorem sse_never_clears_error (s : ClientState) (frame : Json) (e : Snapshot) :
    (onmessage frame s).error = s.error ∧
    (onmessage (encodeSnapshot e) (fetchItemStatus FetchResult.failure s)).item =
      some e ∧
    render (onmessage (encodeSnapshot e) (fetchItemStatus FetchResult.failure s)) =
      View.errorView connectError := by
  refine ⟨?_, ?_, ?_⟩
  · unfold onmessage
    cases decodeSnapshot frame <;> rfl
  · simp [onmessage, decode_encode, fetchItemStatus]
  · simp [onmessage, decode_encode, fetchItemStatus, render]

end Misprint
